import Mathlib

/-!
Verification of the state-gated capture/segmentation/dispatch pipeline of
`core_voice_typing.py` (digitador-por-voz).

The Python classes are shallowly embedded:
* `AppState`, `StateManager` — the four-state FSM and its transition methods;
* `Recorder` — the capture loop (`Recorder.run`), modelled as a step function
  over an explicit state (`RecState`) driven by a serialized event stream
  (state-change notifications and stream reads);
* `Transcriber` — the dispatch loop (`Transcriber.run`), likewise.

Machine integers are `Int`/`Nat`; the numpy floating mean is modelled over `ℚ`
(all amplitudes involved are small, so the float computation is exact there).
-/

set_option maxRecDepth 100000

namespace VoiceTyping

/-- The four application states (`AppState` enum in the source). -/
inductive AppState where
  | INACTIVE
  | READY
  | RECORDING
  | PAUSED
deriving DecidableEq, Repr

/-- The five transition operations exposed by `StateManager`. -/
inductive SMOp where
  | activate
  | deactivate
  | start_recording
  | pause_recording
  | stop_app
deriving DecidableEq, Repr

/-- Method `StateManager.activate`: Inactive → Ready, otherwise no-op. -/
def StateManager.activate (s : AppState) : AppState :=
  if s = AppState.INACTIVE then AppState.READY else s

/-- Method `StateManager.deactivate`: Ready/Paused/Recording → Inactive, otherwise no-op. -/
def StateManager.deactivate (s : AppState) : AppState :=
  if s = AppState.READY ∨ s = AppState.PAUSED ∨ s = AppState.RECORDING then
    AppState.INACTIVE
  else s

/-- Method `StateManager.start_recording`: Ready/Paused → Recording, otherwise no-op. -/
def StateManager.start_recording (s : AppState) : AppState :=
  if s = AppState.READY ∨ s = AppState.PAUSED then AppState.RECORDING else s

/-- Method `StateManager.pause_recording`: Recording → Paused, otherwise no-op. -/
def StateManager.pause_recording (s : AppState) : AppState :=
  if s = AppState.RECORDING then AppState.PAUSED else s

/-- Method `StateManager.stop_app`: unconditionally sets the state to Inactive. -/
def StateManager.stop_app (_ : AppState) : AppState :=
  AppState.INACTIVE

/-- Dispatch one `StateManager` method call on the current state. -/
def applySMOp (op : SMOp) (s : AppState) : AppState :=
  match op with
  | SMOp.activate => StateManager.activate s
  | SMOp.deactivate => StateManager.deactivate s
  | SMOp.start_recording => StateManager.start_recording s
  | SMOp.pause_recording => StateManager.pause_recording s
  | SMOp.stop_app => StateManager.stop_app s

/-- The state reached from the initial state `INACTIVE` after a sequence of
`StateManager` calls. -/
def runSMOps (ops : List SMOp) : AppState :=
  ops.foldl (fun s op => applySMOp op s) AppState.INACTIVE

/-- The transition table of the spec: the destination of a *legal* transition, `none`
when the operation is illegal in the given state.  (Inactive-activate->Ready;
Ready/Paused/Recording-deactivate->Inactive; Ready/Paused-startRecording->Recording;
Recording-pauseRecording->Paused; any-forceStop->Inactive.) -/
def specDest (s : AppState) (op : SMOp) : Option AppState :=
  match op, s with
  | SMOp.activate, AppState.INACTIVE => some AppState.READY
  | SMOp.activate, _ => none
  | SMOp.deactivate, AppState.READY => some AppState.INACTIVE
  | SMOp.deactivate, AppState.PAUSED => some AppState.INACTIVE
  | SMOp.deactivate, AppState.RECORDING => some AppState.INACTIVE
  | SMOp.deactivate, _ => none
  | SMOp.start_recording, AppState.READY => some AppState.RECORDING
  | SMOp.start_recording, AppState.PAUSED => some AppState.RECORDING
  | SMOp.start_recording, _ => none
  | SMOp.pause_recording, AppState.RECORDING => some AppState.PAUSED
  | SMOp.pause_recording, _ => none
  | SMOp.stop_app, _ => some AppState.INACTIVE

/-- The destination of the last legal transition of the sequence, walking the
transition table from state `s`; `acc` holds the destination of the last legal
transition seen so far (initially the initial state). -/
def lastLegalDest (s acc : AppState) : List SMOp → AppState
  | [] => acc
  | op :: rest =>
    match specDest s op with
    | some d => lastLegalDest d d rest
    | none => lastLegalDest s acc rest

/-- A chunk of captured audio: the int16 samples returned by one
`stream.read(chunk_size)`. -/
abbrev Chunk := List ℤ

/-- Mean absolute amplitude `np.abs(audio_data).mean()` of a chunk, over `ℚ`
(numpy computes the mean in float64; on the sample values considered here the
computation is exact).  Built with `mkRat` so that it evaluates by kernel
reduction; `meanAbs_eq_div` states the idiomatic form. -/
def meanAbs (c : Chunk) : ℚ :=
  mkRat ((c.map Int.natAbs).sum : ℤ) c.length

/-- Python `int(...)` on a rational value: truncation toward zero. -/
def pyInt (q : ℚ) : ℤ :=
  if 0 ≤ q then ⌊q⌋ else ⌈q⌉

/-- The exact rational value of `silence_duration * sample_rate / chunk_size`,
built with `mkRat` so that it evaluates by kernel reduction;
`silenceRatio_eq_div` states the idiomatic form. -/
def silenceRatio (silence_duration : ℚ) (sample_rate chunk_size : ℕ) : ℚ :=
  mkRat (silence_duration.num * sample_rate) (silence_duration.den * chunk_size)

/-- The silence-window computation of `Recorder.__init__`:
`int(silence_duration * sample_rate / chunk_size)`. -/
def requiredSilentChunksOf (silence_duration : ℚ) (sample_rate chunk_size : ℕ) : ℤ :=
  pyInt (silenceRatio silence_duration sample_rate chunk_size)

/-- The segmentation-relevant configuration fields stored by `Recorder.__init__`. -/
structure RecorderConfig where
  silence_threshold : ℚ
  required_silent_chunks : ℕ
deriving DecidableEq, Repr

/-- Constructor `Recorder.__init__` as a total function: it stores the configuration and
never validates it (construction never fails). -/
def Recorder.mkConfig (silence_threshold silence_duration : ℚ)
    (sample_rate chunk_size : ℕ) : RecorderConfig :=
  { silence_threshold := silence_threshold
    required_silent_chunks := (requiredSilentChunksOf silence_duration sample_rate chunk_size).toNat }

/-- Python `frames[:-k]` for a nonnegative `k` (for `k = 0` the slice is
`frames[:0] = []`). -/
def pySliceDropLast (k : ℕ) (xs : List Chunk) : List Chunk :=
  if k = 0 then [] else xs.take (xs.length - k)

/-- Python `frames[-k:]` for a nonnegative `k` (for `k = 0` the slice is
`frames[0:]`, the whole list). -/
def pySliceTakeLast (k : ℕ) (xs : List Chunk) : List Chunk :=
  if k = 0 then xs else xs.drop (xs.length - k)

/-- The mutable state of the `Recorder` thread: the locals `frames` and
`silent_chunks` of `Recorder.run`, the `_recording` and `_terminate` events,
whether the thread has died of an uncaught exception, and the segments put on
`audio_queue` so far (each segment is its list of chunks). -/
structure RecState where
  frames : List Chunk
  silent_chunks : ℕ
  recording : Bool
  terminated : Bool
  died : Bool
  queue : List (List Chunk)
deriving DecidableEq, Repr

/-- Recorder state at thread start. -/
def initRecState : RecState :=
  { frames := [], silent_chunks := 0, recording := false, terminated := false,
    died := false, queue := [] }

/-- The updated consecutive-silent-chunk counter after reading chunk `c`:
incremented when the mean absolute amplitude of the chunk is below the threshold,
reset to 0 otherwise. -/
def nextSilent (cfg : RecorderConfig) (s : RecState) (c : Chunk) : ℕ :=
  if meanAbs c < cfg.silence_threshold then s.silent_chunks + 1 else 0

/-- One body iteration of `Recorder.run` after a successful
`stream.read`: append the chunk, update the consecutive-silent counter, and
split off a segment when the silence window is full and speech precedes it. -/
def readChunk (cfg : RecorderConfig) (s : RecState) (c : Chunk) : RecState :=
  let frames := s.frames ++ [c]
  let silent := nextSilent cfg s c
  if cfg.required_silent_chunks ≤ silent ∧ silent < frames.length then
    let segment := pySliceDropLast silent frames
    { s with
      frames := pySliceTakeLast silent frames
      silent_chunks := silent
      queue := if segment.isEmpty then s.queue else s.queue ++ [segment] }
  else
    { s with frames := frames, silent_chunks := silent }

/-- Callback `Recorder._handle_state_change`: set/clear the `_recording` event, and set
`_terminate` on `INACTIVE` (it is never cleared). -/
def Recorder.handleStateChange (s : RecState) (st : AppState) : RecState :=
  let s1 := { s with recording := if st = AppState.RECORDING then true else false }
  if st = AppState.INACTIVE then { s1 with terminated := true } else s1

/-- The serialized events driving the recorder loop: a state-change
notification, a successful read of one chunk, or a read that raises. -/
inductive RecEvent where
  | set_state (st : AppState)
  | read (c : Chunk)
  | read_error
deriving DecidableEq, Repr

/-- The `while not self._terminate.is_set()` loop of `Recorder.run` over a
serialized event stream.  Once `_terminate` is set the loop exits (remaining
events are not consumed); while `_recording` is clear the loop idles and the
stream is not read; a read while recording appends a chunk; a read error while
recording is uncaught, so the thread dies on the spot. -/
def recorderLoop (cfg : RecorderConfig) : RecState → List RecEvent → RecState
  | s, [] => s
  | s, e :: rest =>
    if s.terminated || s.died then s
    else
      match e with
      | RecEvent.set_state st => recorderLoop cfg (Recorder.handleStateChange s st) rest
      | RecEvent.read c =>
        recorderLoop cfg (if s.recording then readChunk cfg s c else s) rest
      | RecEvent.read_error =>
        recorderLoop cfg (if s.recording then { s with died := true } else s) rest

/-- The final-flush epilogue of `Recorder.run`: it runs only when the loop
exits normally (an uncaught exception skips it), and enqueues the accumulated
frames when non-empty. -/
def recorderFlush (s : RecState) : RecState :=
  if s.died then s
  else if s.frames.isEmpty then s
  else { s with queue := s.queue ++ [s.frames] }

/-- A full run of the recorder thread: process the event stream, then the
final flush at loop exit. -/
def recorderRun (cfg : RecorderConfig) (events : List RecEvent) : RecState :=
  recorderFlush (recorderLoop cfg initRecState events)

/-- The mutable state of the `Transcriber` thread: the segment files waiting in
`audio_queue` (FIFO, identified by numeric ids), the `_process_allowed` and
`_terminate` events, whether the thread has died of an uncaught exception, the
texts forwarded to `output_callback`, and the files removed from disk. -/
structure TransState where
  pending : List ℕ
  process_allowed : Bool
  terminated : Bool
  died : Bool
  typed : List String
  removed : List ℕ
deriving DecidableEq, Repr

/-- Transcriber state at thread start. -/
def initTransState : TransState :=
  { pending := [], process_allowed := false, terminated := false, died := false,
    typed := [], removed := [] }

/-- Callback `Transcriber._handle_state_change`: set/clear `_process_allowed`, and set
`_terminate` on `INACTIVE` (never cleared). -/
def Transcriber.handleStateChange (s : TransState) (st : AppState) : TransState :=
  let s1 := { s with process_allowed := if st = AppState.RECORDING then true else false }
  if st = AppState.INACTIVE then { s1 with terminated := true } else s1

/-- One dequeue-and-transcribe iteration of `Transcriber.run`, given the engine
`model.transcribe` as a function from file id to either its text or an error.
An empty queue is the `queue.Empty` timeout: continue.  On a dequeued file the
body is `try: transcribe; forward non-empty text / finally: remove file` with
no except clause, so an engine error removes the file and then propagates,
killing the thread. -/
def Transcriber.tick (engine : ℕ → Except Unit String) (s : TransState) : TransState :=
  match s.pending with
  | [] => s
  | f :: rest =>
    match engine f with
    | Except.ok text =>
      let text := text.trim
      let s1 := { s with pending := rest, removed := s.removed ++ [f] }
      if text = "" then s1 else { s1 with typed := s1.typed ++ [text] }
    | Except.error _ =>
      { s with pending := rest, removed := s.removed ++ [f], died := true }

/-- The serialized events driving the transcriber loop: a state-change
notification, an enqueue by the producer, or one loop iteration. -/
inductive TransEvent where
  | set_state (st : AppState)
  | enqueue (f : ℕ)
  | tick
deriving DecidableEq, Repr

/-- The `while not self._terminate.is_set()` loop of `Transcriber.run` over a
serialized event stream.  Enqueues come from the producer thread and land in
the shared queue even after this worker has stopped; the worker itself ignores
events once `_terminate` is set or the thread has died, and idles while
`_process_allowed` is clear. -/
def transcriberLoop (engine : ℕ → Except Unit String) :
    TransState → List TransEvent → TransState
  | s, [] => s
  | s, TransEvent.enqueue f :: rest =>
    transcriberLoop engine { s with pending := s.pending ++ [f] } rest
  | s, TransEvent.set_state st :: rest =>
    transcriberLoop engine
      (if s.terminated || s.died then s else Transcriber.handleStateChange s st) rest
  | s, TransEvent.tick :: rest =>
    transcriberLoop engine
      (if s.terminated || s.died then s
       else if s.process_allowed then Transcriber.tick engine s else s) rest

/-- A chunk at speech level: mean absolute amplitude `400 ≥ 300`. -/
def speechChunk : Chunk := [400]

/-- A silent chunk: mean absolute amplitude `0 < 300`. -/
def silentChunk : Chunk := [0]

/-- The configuration of the scenario in the spec (and the defaults in the source):
threshold 300, silence duration 1.0 s, sample rate 48000, chunk size 1024. -/
def scenarioConfig : RecorderConfig :=
  Recorder.mkConfig 300 1 48000 1024

/-- The event stream of the scenario up to and including the 46th silent chunk. -/
def scenarioEventsMid : List RecEvent :=
  RecEvent.set_state AppState.RECORDING ::
    (List.replicate 100 (RecEvent.read speechChunk) ++
      List.replicate 46 (RecEvent.read silentChunk))

/-- The full event stream of the scenario: start recording, 100 speech chunks,
46 silent chunks, 20 more speech chunks, then deactivation (shutdown). -/
def scenarioEvents : List RecEvent :=
  scenarioEventsMid ++
    (List.replicate 20 (RecEvent.read speechChunk) ++
      [RecEvent.set_state AppState.INACTIVE])

/-- Events for the counterexample of claim C3: start recording, read one speech
chunk, then pause. -/
def pauseEvents : List RecEvent :=
  [RecEvent.set_state AppState.RECORDING, RecEvent.read speechChunk,
    RecEvent.set_state AppState.PAUSED]

/-- A two-silent-chunk configuration used in small concrete runs. -/
def smallConfig : RecorderConfig :=
  { silence_threshold := 300, required_silent_chunks := 2 }

/-- Events for the concrete conjunct of claim C10: two speech chunks, pause, resume,
one more speech chunk, then two silent chunks completing the silence window. -/
def pauseResumeEvents : List RecEvent :=
  [RecEvent.set_state AppState.RECORDING, RecEvent.read [400], RecEvent.read [500],
    RecEvent.set_state AppState.PAUSED, RecEvent.set_state AppState.RECORDING,
    RecEvent.read [600], RecEvent.read [0], RecEvent.read [0]]

/-- Events for the counterexample of claim C5, recorder side: deactivate, then try to
reactivate and record again. -/
def reactivateRecEvents : List RecEvent :=
  [RecEvent.set_state AppState.RECORDING, RecEvent.set_state AppState.INACTIVE,
    RecEvent.set_state AppState.READY, RecEvent.set_state AppState.RECORDING,
    RecEvent.read speechChunk]

/-- Events for the counterexample of claim C5, transcriber side: deactivate, then
try to reactivate and process a queued segment. -/
def reactivateTransEvents : List TransEvent :=
  [TransEvent.set_state AppState.RECORDING, TransEvent.set_state AppState.INACTIVE,
    TransEvent.set_state AppState.RECORDING, TransEvent.enqueue 5, TransEvent.tick]

/-- An engine that always succeeds with the text "texto". -/
def engineOk : ℕ → Except Unit String := fun _ => Except.ok "texto"

/-- An engine that raises on segment 1 and succeeds on every other segment. -/
def engineFailsOn1 : ℕ → Except Unit String := fun f =>
  if f = 1 then Except.error () else Except.ok "texto"

/-- Events for claim C4: start recording, enqueue segments 1 and 2, then three
loop iterations. -/
def engineErrorEvents : List TransEvent :=
  [TransEvent.set_state AppState.RECORDING, TransEvent.enqueue 1, TransEvent.enqueue 2,
    TransEvent.tick, TransEvent.tick, TransEvent.tick]

/-- Events for the counterexample of claim C7: a read error strikes after one good
chunk, then deactivation. -/
def readErrorEvents : List RecEvent :=
  [RecEvent.set_state AppState.RECORDING, RecEvent.read speechChunk,
    RecEvent.read_error, RecEvent.set_state AppState.INACTIVE]

/-- A one-silent-chunk configuration for the witness run of claim C9. -/
def tinyConfig : RecorderConfig :=
  { silence_threshold := 300, required_silent_chunks := 1 }

/-- Events for the witness run of claim C9: one speech chunk, one silent chunk
(causing a split), then shutdown. -/
def tinyEvents : List RecEvent :=
  [RecEvent.set_state AppState.RECORDING, RecEvent.read speechChunk,
    RecEvent.read silentChunk, RecEvent.set_state AppState.INACTIVE]

/-- A mid-recording state for the witness of claim C8: buffer `[[400], [0]]`, one
silent chunk already counted. -/
def splitState : RecState :=
  { frames := [[400], [0]], silent_chunks := 1, recording := true, terminated := false,
    died := false, queue := [] }

theorem applySMOp_eq_specDest (op : SMOp) (s : AppState) :
    applySMOp op s = (specDest s op).getD s := by
  cases op <;> cases s <;> rfl

theorem foldl_applySMOp_eq_lastLegalDest (ops : List SMOp) (s : AppState) :
    ops.foldl (fun s op => applySMOp op s) s = lastLegalDest s s ops := by
  induction ops generalizing s with
  | nil => rfl
  | cons op rest ih =>
    have h := applySMOp_eq_specDest op s
    cases hd : specDest s op with
    | none =>
      simp only [List.foldl_cons, lastLegalDest, hd]
      rw [h, hd]
      exact ih s
    | some d =>
      simp only [List.foldl_cons, lastLegalDest, hd]
      rw [h, hd]
      exact ih d

theorem meanAbs_eq_div (c : Chunk) :
    meanAbs c = ((c.map fun x => (x.natAbs : ℚ)).sum) / c.length := by
  rw [meanAbs, Rat.mkRat_eq_div]
  congr 1
  rw [Int.cast_natCast, Nat.cast_list_sum, List.map_map]
  simp [Function.comp_def]

theorem silenceRatio_eq_div (d : ℚ) (r c : ℕ) :
    silenceRatio d r c = d * r / c := by
  rw [silenceRatio, Rat.mkRat_eq_div]
  push_cast
  rw [← div_div, mul_comm ((d.num : ℚ)) ((r : ℚ)), mul_div_assoc, Rat.num_div_den,
    mul_comm ((r : ℚ)) d]

/-- Claim C1: starting from `INACTIVE`, after any finite sequence of
`activate`, `deactivate`, `start_recording`, `pause_recording`, `stop_app`
calls, the state is one of the four defined states and equals the destination
of the last legal transition of the sequence according to the transition table
(the initial state if no transition was legal); every illegal transition leaves
the state unchanged, and every call is a total function (never fails). -/
theorem claim_C1_fsm_trace :
    (∀ op s, applySMOp op s = (specDest s op).getD s) ∧
    (∀ ops : List SMOp, runSMOps ops = lastLegalDest AppState.INACTIVE AppState.INACTIVE ops) ∧
    (∀ ops : List SMOp,
      runSMOps ops ∈ [AppState.INACTIVE, AppState.READY, AppState.RECORDING, AppState.PAUSED]) := by
  refine ⟨applySMOp_eq_specDest, ?_, ?_⟩
  · intro ops
    exact foldl_applySMOp_eq_lastLegalDest ops AppState.INACTIVE
  · intro ops
    cases runSMOps ops <;> simp

/-- Claim C2 (counterexample): in the scenario of the spec (threshold 300, 1.0 s
silence, 48 kHz, chunk 1024; 100 speech chunks, 46 silent chunks, 20 speech
chunks, then shutdown), the recorder does NOT produce segments of 100 and 20
chunks: the retained trailing silence makes the final flushed segment hold
46 + 20 = 66 chunks, not 20. -/
theorem claim_C2_counterexample :
    (recorderRun scenarioConfig scenarioEvents).queue.map List.length ≠ [100, 20] := by
  have h : (recorderRun scenarioConfig scenarioEvents).queue.map List.length = [100, 66] := by
    rfl
  rw [h]
  decide

/-- Claim C2 (amended): with threshold 300, silence duration 1.0 s, sample rate
48000 and chunk size 1024, the required silent-chunk count is 46; in the
scenario the recorder enqueues exactly one segment of exactly the 100 speech
chunks at the moment the 46th silent chunk is processed, and the final flush on
shutdown enqueues exactly one further segment of 66 chunks: the 46 retained
trailing silent chunks followed by the 20 speech chunks. -/
theorem claim_C2_scenario :
    scenarioConfig.required_silent_chunks = 46 ∧
    (recorderLoop scenarioConfig initRecState scenarioEventsMid).queue =
      [List.replicate 100 speechChunk] ∧
    (recorderRun scenarioConfig scenarioEvents).queue =
      [List.replicate 100 speechChunk,
        List.replicate 46 silentChunk ++ List.replicate 20 speechChunk] := by
  refine ⟨by decide, by rfl, by rfl⟩

theorem recorderLoop_stopped (cfg : RecorderConfig) (s : RecState)
    (h : (s.terminated || s.died) = true) (events : List RecEvent) :
    recorderLoop cfg s events = s := by
  cases events with
  | nil => rfl
  | cons e rest => simp only [recorderLoop, h, if_true]

theorem handleStateChange_paused_fields (s : RecState) :
    (Recorder.handleStateChange s AppState.PAUSED).frames = s.frames ∧
    (Recorder.handleStateChange s AppState.PAUSED).silent_chunks = s.silent_chunks ∧
    (Recorder.handleStateChange s AppState.PAUSED).queue = s.queue ∧
    (Recorder.handleStateChange s AppState.PAUSED).terminated = s.terminated ∧
    (Recorder.handleStateChange s AppState.PAUSED).died = s.died ∧
    (Recorder.handleStateChange s AppState.PAUSED).recording = false :=
  ⟨rfl, rfl, rfl, rfl, rfl, rfl⟩

theorem recorderLoop_skips_reads (cfg : RecorderConfig) (s : RecState)
    (h : s.recording = false) (cs : List Chunk) (rest : List RecEvent) :
    recorderLoop cfg s (cs.map RecEvent.read ++ rest) = recorderLoop cfg s rest := by
  induction cs with
  | nil => rfl
  | cons c cs ih =>
    by_cases hstop : (s.terminated || s.died) = true
    · rw [recorderLoop_stopped cfg s hstop, recorderLoop_stopped cfg s hstop]
    · have hstop' : (s.terminated || s.died) = false := by
        revert hstop
        cases s.terminated <;> cases s.died <;> simp
      simp only [List.map_cons, List.cons_append, recorderLoop, hstop', Bool.false_eq_true,
        if_false, h]
      exact ih

/-- Claim C3 (counterexample): a transition Recording → Paused with a non-empty
accumulation buffer does NOT cause a segment to be enqueued: after starting to
record, reading one speech chunk and pausing, the queue is still empty while
the buffer still holds the chunk (and the loop is not terminated, so no flush
is pending either). -/
theorem claim_C3_counterexample :
    (recorderLoop scenarioConfig initRecState pauseEvents).queue = [] ∧
    (recorderLoop scenarioConfig initRecState pauseEvents).frames = [speechChunk] ∧
    (recorderLoop scenarioConfig initRecState pauseEvents).recording = false ∧
    (recorderLoop scenarioConfig initRecState pauseEvents).terminated = false :=
  ⟨rfl, rfl, rfl, rfl⟩

/-- Claim C3 (amended): the collector flushes only at loop exit, which happens
on transition to Inactive or process shutdown: a transition Recording → Paused
leaves the accumulation buffer, the silent counter and the queue untouched
(no flush), while the `INACTIVE` notification sets the terminate flag and the
final flush then emits a non-empty buffer as exactly one final segment. -/
theorem claim_C3_flush_on_terminate_only :
    (∀ s : RecState,
      (Recorder.handleStateChange s AppState.PAUSED).frames = s.frames ∧
      (Recorder.handleStateChange s AppState.PAUSED).silent_chunks = s.silent_chunks ∧
      (Recorder.handleStateChange s AppState.PAUSED).queue = s.queue) ∧
    (∀ s : RecState, (Recorder.handleStateChange s AppState.INACTIVE).terminated = true) ∧
    (∀ s : RecState, s.died = false → s.frames ≠ [] →
      (recorderFlush s).queue = s.queue ++ [s.frames]) := by
  refine ⟨fun s => ⟨rfl, rfl, rfl⟩, fun s => rfl, fun s hdied hne => ?_⟩
  have hempty : s.frames.isEmpty = false := by
    cases hf : s.frames with
    | nil => exact absurd hf hne
    | cons a l => rfl
  simp only [recorderFlush, hdied, Bool.false_eq_true, if_false, hempty]

theorem claim_C3_flush_on_terminate_only_witness :
    (recorderFlush
        { frames := [[400]], silent_chunks := 0, recording := true, terminated := true,
          died := false, queue := [] }).queue = [] ++ [[[400]]] :=
  claim_C3_flush_on_terminate_only.2.2
    { frames := [[400]], silent_chunks := 0, recording := true, terminated := true,
      died := false, queue := [] } rfl (by decide)

/-- Claim C10: pausing preserves the in-progress segment state exactly: for any
recorder state, handling Recording → Paused, idling over any stretch of the
stream, and resuming leaves `frames`, `silent_chunks` and the queue exactly as
they were at pause; concretely, chunks accumulated before a pause appear at the
front of the next emitted segment ([400], [500] buffered before pausing lead
the segment [[400], [500], [600]] split off after resuming). -/
theorem claim_C10_pause_preserves :
    (∀ (cfg : RecorderConfig) (s : RecState) (cs : List Chunk),
      (recorderLoop cfg s
          (RecEvent.set_state AppState.PAUSED ::
            (cs.map RecEvent.read ++ [RecEvent.set_state AppState.RECORDING]))).frames
          = s.frames ∧
      (recorderLoop cfg s
          (RecEvent.set_state AppState.PAUSED ::
            (cs.map RecEvent.read ++ [RecEvent.set_state AppState.RECORDING]))).silent_chunks
          = s.silent_chunks ∧
      (recorderLoop cfg s
          (RecEvent.set_state AppState.PAUSED ::
            (cs.map RecEvent.read ++ [RecEvent.set_state AppState.RECORDING]))).queue
          = s.queue) ∧
    (recorderLoop smallConfig initRecState pauseResumeEvents).queue =
      [[[400], [500], [600]]] := by
  refine ⟨fun cfg s cs => ?_, by rfl⟩
  by_cases hstop : (s.terminated || s.died) = true
  · rw [recorderLoop_stopped cfg s hstop]
    exact ⟨rfl, rfl, rfl⟩
  · have hstop' : (s.terminated || s.died) = false := by
      revert hstop
      cases s.terminated <;> cases s.died <;> simp
    simp only [recorderLoop, hstop', Bool.false_eq_true, if_false]
    set s1 := Recorder.handleStateChange s AppState.PAUSED with hs1
    have h1 : s1.recording = false := rfl
    rw [recorderLoop_skips_reads cfg s1 h1]
    have hstop1 : (s1.terminated || s1.died) = false := by
      have ht : s1.terminated = s.terminated := rfl
      have hd : s1.died = s.died := rfl
      rw [ht, hd, hstop']
    simp only [recorderLoop, hstop1, Bool.false_eq_true, if_false]
    exact ⟨rfl, rfl, rfl⟩

/-- Claim C4: the code at the failing input.  With segments 1 and 2 queued and
the engine raising on segment 1, one loop iteration removes the backing
file of segment 1 (the `finally` block), but the uncaught error kills the worker: it never
continues to segment 2 (still pending after further iterations) and types
nothing.  The code thus honours the storage-cleanup half of the claim and violates
its catch-and-continue half. -/
theorem claim_C4_engine_error_kills_worker :
    (transcriberLoop engineFailsOn1 initTransState engineErrorEvents).removed = [1] ∧
    (transcriberLoop engineFailsOn1 initTransState engineErrorEvents).died = true ∧
    (transcriberLoop engineFailsOn1 initTransState engineErrorEvents).typed = [] ∧
    (transcriberLoop engineFailsOn1 initTransState engineErrorEvents).pending = [2] :=
  ⟨rfl, rfl, rfl, rfl⟩

/-- Claim C5 (counterexample): a transition to Inactive DOES terminate both
workers, and a later activate + startRecording does not resume them: after
deactivation the recorder ignores a new Recording notification and a read
(its buffer stays empty), and the transcriber ignores a queued segment
(nothing typed, nothing removed). -/
theorem claim_C5_counterexample :
    (recorderLoop scenarioConfig initRecState reactivateRecEvents).terminated = true ∧
    (recorderLoop scenarioConfig initRecState reactivateRecEvents).frames = [] ∧
    (transcriberLoop engineOk initTransState reactivateTransEvents).terminated = true ∧
    (transcriberLoop engineOk initTransState reactivateTransEvents).typed = [] ∧
    (transcriberLoop engineOk initTransState reactivateTransEvents).removed = [] ∧
    (transcriberLoop engineOk initTransState reactivateTransEvents).pending = [5] :=
  ⟨rfl, rfl, rfl, rfl, rfl, rfl⟩

theorem transcriberLoop_terminated (engine : ℕ → Except Unit String) (s : TransState)
    (events : List TransEvent) (h : s.terminated = true) :
    (transcriberLoop engine s events).typed = s.typed ∧
    (transcriberLoop engine s events).removed = s.removed := by
  induction events generalizing s with
  | nil => exact ⟨rfl, rfl⟩
  | cons e rest ih =>
    cases e with
    | enqueue f => exact ih { s with pending := s.pending ++ [f] } h
    | set_state st =>
      simp only [transcriberLoop, h, Bool.true_or, if_true]
      exact ih s h
    | tick =>
      simp only [transcriberLoop, h, Bool.true_or, if_true]
      exact ih s h

/-- Claim C5 (amended): the worker loops survive every state change except
deactivation, but a transition to Inactive sets the terminate flag of both
workers, permanently: a terminated recorder processes no further events at all,
and a terminated transcriber neither transcribes nor removes anything further,
so reactivation does not resume capture or transcription on these threads. -/
theorem claim_C5_inactive_terminates_workers :
    (∀ s : RecState, (Recorder.handleStateChange s AppState.INACTIVE).terminated = true) ∧
    (∀ (s : RecState) (st : AppState), st ≠ AppState.INACTIVE →
      (Recorder.handleStateChange s st).terminated = s.terminated) ∧
    (∀ (cfg : RecorderConfig) (s : RecState) (events : List RecEvent),
      s.terminated = true → recorderLoop cfg s events = s) ∧
    (∀ s : TransState, (Transcriber.handleStateChange s AppState.INACTIVE).terminated = true) ∧
    (∀ (s : TransState) (st : AppState), st ≠ AppState.INACTIVE →
      (Transcriber.handleStateChange s st).terminated = s.terminated) ∧
    (∀ (engine : ℕ → Except Unit String) (s : TransState) (events : List TransEvent),
      s.terminated = true →
      (transcriberLoop engine s events).typed = s.typed ∧
      (transcriberLoop engine s events).removed = s.removed) := by
  refine ⟨fun s => rfl, fun s st hst => ?_, fun cfg s events h => ?_,
    fun s => rfl, fun s st hst => ?_, fun engine s events h => transcriberLoop_terminated engine s events h⟩
  · cases st with
    | INACTIVE => exact absurd rfl hst
    | READY => rfl
    | RECORDING => rfl
    | PAUSED => rfl
  · exact recorderLoop_stopped cfg s (by rw [h, Bool.true_or]) events
  · cases st with
    | INACTIVE => exact absurd rfl hst
    | READY => rfl
    | RECORDING => rfl
    | PAUSED => rfl

theorem claim_C5_inactive_terminates_workers_witness :
    recorderLoop scenarioConfig
      { frames := [], silent_chunks := 0, recording := false, terminated := true,
        died := false, queue := [] } [RecEvent.read [400]] =
      { frames := [], silent_chunks := 0, recording := false, terminated := true,
        died := false, queue := [] } :=
  claim_C5_inactive_terminates_workers.2.2.1 scenarioConfig
    { frames := [], silent_chunks := 0, recording := false, terminated := true,
      died := false, queue := [] } [RecEvent.read [400]] rfl

/-- Claim C7 (counterexample): a SINGLE read error terminates the collector:
right after one read error while recording the thread is dead, and at shutdown
nothing was flushed (the queue is empty even though the buffer held a chunk) —
there is no three-failure escalation and no flush attempt. -/
theorem claim_C7_counterexample :
    (recorderLoop scenarioConfig initRecState
        [RecEvent.set_state AppState.RECORDING, RecEvent.read_error]).died = true ∧
    (recorderRun scenarioConfig readErrorEvents).queue = [] ∧
    (recorderLoop scenarioConfig initRecState readErrorEvents).frames = [speechChunk] :=
  ⟨rfl, rfl, rfl⟩

/-- Claim C7 (amended): audio-source read errors are not handled at all: the
first read error while recording kills the collector on the spot — the state
freezes with the dead flag set, every later event is ignored, and the final
flush is skipped for a dead collector, so the accumulated buffer is lost. -/
theorem claim_C7_read_error_fatal :
    (∀ (cfg : RecorderConfig) (s : RecState) (rest : List RecEvent),
      s.recording = true → s.terminated = false → s.died = false →
      recorderLoop cfg s (RecEvent.read_error :: rest) = { s with died := true }) ∧
    (∀ s : RecState, s.died = true → recorderFlush s = s) := by
  constructor
  · intro cfg s rest hrec hterm hdied
    have hstop : (s.terminated || s.died) = false := by rw [hterm, hdied]; rfl
    simp only [recorderLoop, hstop, Bool.false_eq_true, if_false, hrec, if_true]
    exact recorderLoop_stopped cfg { s with recording := true, died := true }
      (by rw [Bool.or_true]) rest
  · intro s h
    simp only [recorderFlush, h, if_true]

theorem claim_C7_read_error_fatal_witness :
    recorderLoop scenarioConfig
      { frames := [[400]], silent_chunks := 0, recording := true, terminated := false,
        died := false, queue := [] } [RecEvent.read_error, RecEvent.read [0]] =
      { frames := [[400]], silent_chunks := 0, recording := true, terminated := false,
        died := true, queue := [] } ∧
    recorderFlush
      { frames := [[400]], silent_chunks := 0, recording := true, terminated := false,
        died := true, queue := [] } =
      { frames := [[400]], silent_chunks := 0, recording := true, terminated := false,
        died := true, queue := [] } :=
  ⟨claim_C7_read_error_fatal.1 scenarioConfig
      { frames := [[400]], silent_chunks := 0, recording := true, terminated := false,
        died := false, queue := [] } [RecEvent.read [0]] rfl rfl rfl,
    claim_C7_read_error_fatal.2
      { frames := [[400]], silent_chunks := 0, recording := true, terminated := false,
        died := true, queue := [] } rfl⟩

theorem isEmpty_false_of_ne_nil {l : List Chunk} (h : l ≠ []) : l.isEmpty = false := by
  cases l with
  | nil => exact absurd rfl h
  | cons a t => rfl

theorem ne_nil_of_isEmpty_false {l : List Chunk} (h : l.isEmpty = false) : l ≠ [] := by
  cases l with
  | nil => exact absurd h (by decide)
  | cons a t => exact List.cons_ne_nil a t

theorem readChunk_no_empty (cfg : RecorderConfig) (s : RecState) (c : Chunk)
    (h : ∀ seg ∈ s.queue, seg ≠ []) :
    ∀ seg ∈ (readChunk cfg s c).queue, seg ≠ [] := by
  intro seg hseg
  simp only [readChunk] at hseg
  by_cases hc :
      cfg.required_silent_chunks ≤ nextSilent cfg s c ∧
        nextSilent cfg s c < (s.frames ++ [c]).length
  · rw [if_pos hc] at hseg
    by_cases he : (pySliceDropLast (nextSilent cfg s c) (s.frames ++ [c])).isEmpty = true
    · simp only [he, if_true] at hseg
      exact h seg hseg
    · simp only [he, if_false] at hseg
      rcases List.mem_append.mp hseg with hin | hin
      · exact h seg hin
      · rw [List.mem_singleton] at hin
        subst hin
        exact ne_nil_of_isEmpty_false (Bool.not_eq_true _ ▸ he)
  · rw [if_neg hc] at hseg
    exact h seg hseg

theorem handleStateChange_queue (s : RecState) (st : AppState) :
    (Recorder.handleStateChange s st).queue = s.queue := by
  cases st <;> rfl

theorem recorderLoop_no_empty (cfg : RecorderConfig) (events : List RecEvent)
    (s : RecState) (h : ∀ seg ∈ s.queue, seg ≠ []) :
    ∀ seg ∈ (recorderLoop cfg s events).queue, seg ≠ [] := by
  induction events generalizing s with
  | nil => exact h
  | cons e rest ih =>
    by_cases hstop : (s.terminated || s.died) = true
    · rw [recorderLoop_stopped cfg s hstop]
      exact h
    · have hstop' : (s.terminated || s.died) = false := by
        revert hstop
        cases s.terminated <;> cases s.died <;> simp
      cases e with
      | set_state st =>
        simp only [recorderLoop, hstop', Bool.false_eq_true, if_false]
        refine ih (Recorder.handleStateChange s st) ?_
        rw [handleStateChange_queue]
        exact h
      | read c =>
        simp only [recorderLoop, hstop', Bool.false_eq_true, if_false]
        by_cases hrec : s.recording = true
        · simp only [hrec, if_true]
          exact ih (readChunk cfg s c) (readChunk_no_empty cfg s c h)
        · simp only [hrec, if_false]
          exact ih s h
      | read_error =>
        simp only [recorderLoop, hstop', Bool.false_eq_true, if_false]
        by_cases hrec : s.recording = true
        · simp only [hrec, if_true]
          exact ih { s with recording := true, died := true } h
        · simp only [hrec, if_false]
          exact ih s h

theorem recorderFlush_no_empty (s : RecState) (h : ∀ seg ∈ s.queue, seg ≠ []) :
    ∀ seg ∈ (recorderFlush s).queue, seg ≠ [] := by
  intro seg hseg
  by_cases hd : s.died = true
  · simp only [recorderFlush, hd, if_true] at hseg
    exact h seg hseg
  · simp only [recorderFlush, hd, Bool.false_eq_true, if_false] at hseg
    by_cases he : s.frames.isEmpty = true
    · simp only [he, if_true] at hseg
      exact h seg hseg
    · simp only [he, Bool.false_eq_true, if_false] at hseg
      rcases List.mem_append.mp hseg with hin | hin
      · exact h seg hin
      · rw [List.mem_singleton] at hin
        subst hin
        exact ne_nil_of_isEmpty_false (Bool.not_eq_true _ ▸ he)

/-- Claim C9: for every configuration, every event stream (any input frames and
any schedule of state transitions), no segment in the queue after a full
recorder run — silence-boundary splits and final flush included — is empty. -/
theorem claim_C9_no_empty_segment (cfg : RecorderConfig) (events : List RecEvent) :
    ∀ seg ∈ (recorderRun cfg events).queue, seg ≠ [] := by
  refine recorderFlush_no_empty _ (recorderLoop_no_empty cfg events initRecState ?_)
  intro seg hseg
  exact absurd hseg (List.not_mem_nil seg)

theorem claim_C9_no_empty_segment_witness :
    [speechChunk] ∈ (recorderRun tinyConfig tinyEvents).queue ∧
      ([speechChunk] : List Chunk) ≠ [] :=
  ⟨by decide, claim_C9_no_empty_segment tinyConfig tinyEvents [speechChunk] (by decide)⟩

theorem readChunk_split_eq (cfg : RecorderConfig) (s : RecState) (c : Chunk)
    (hcond : cfg.required_silent_chunks ≤ nextSilent cfg s c ∧
      nextSilent cfg s c < (s.frames ++ [c]).length)
    (hk0 : nextSilent cfg s c ≠ 0)
    (hne : (s.frames ++ [c]).take ((s.frames ++ [c]).length - nextSilent cfg s c) ≠ []) :
    readChunk cfg s c =
      { s with
        frames := (s.frames ++ [c]).drop ((s.frames ++ [c]).length - nextSilent cfg s c)
        silent_chunks := nextSilent cfg s c
        queue := s.queue ++
          [(s.frames ++ [c]).take ((s.frames ++ [c]).length - nextSilent cfg s c)] } := by
  have hdrop : pySliceDropLast (nextSilent cfg s c) (s.frames ++ [c]) =
      (s.frames ++ [c]).take ((s.frames ++ [c]).length - nextSilent cfg s c) := by
    rw [pySliceDropLast, if_neg hk0]
  have htake : pySliceTakeLast (nextSilent cfg s c) (s.frames ++ [c]) =
      (s.frames ++ [c]).drop ((s.frames ++ [c]).length - nextSilent cfg s c) := by
    rw [pySliceTakeLast, if_neg hk0]
  have hempty : (pySliceDropLast (nextSilent cfg s c) (s.frames ++ [c])).isEmpty = false := by
    rw [hdrop]
    exact isEmpty_false_of_ne_nil hne
  simp only [readChunk, if_pos hcond, hdrop, htake, hempty, isEmpty_false_of_ne_nil hne,
    Bool.false_eq_true, if_false]

/-- Claim C8: when the consecutive-silent counter reaches the configured
required count (which is at least 1) and the accumulation buffer holds strictly
more frames than the silent run, the read step enqueues exactly one new,
non-empty segment consisting of all buffered frames up to but excluding the
trailing silent run, and the new accumulation buffer consists of exactly the
trailing silent run (its `nextSilent` frames are retained, not discarded). -/
theorem claim_C8_silence_split (cfg : RecorderConfig) (s : RecState) (c : Chunk)
    (hreq : 1 ≤ cfg.required_silent_chunks)
    (hcount : cfg.required_silent_chunks ≤ nextSilent cfg s c)
    (hrun : nextSilent cfg s c < (s.frames ++ [c]).length) :
    (readChunk cfg s c).queue =
      s.queue ++ [(s.frames ++ [c]).take ((s.frames ++ [c]).length - nextSilent cfg s c)] ∧
    (s.frames ++ [c]).take ((s.frames ++ [c]).length - nextSilent cfg s c) ≠ [] ∧
    (readChunk cfg s c).frames =
      (s.frames ++ [c]).drop ((s.frames ++ [c]).length - nextSilent cfg s c) ∧
    (readChunk cfg s c).frames.length = nextSilent cfg s c ∧
    (readChunk cfg s c).silent_chunks = nextSilent cfg s c := by
  have hk0 : nextSilent cfg s c ≠ 0 := by omega
  have hlen : ((s.frames ++ [c]).take
      ((s.frames ++ [c]).length - nextSilent cfg s c)).length =
      (s.frames ++ [c]).length - nextSilent cfg s c := by
    rw [List.length_take]
    omega
  have hne : (s.frames ++ [c]).take ((s.frames ++ [c]).length - nextSilent cfg s c) ≠ [] := by
    intro hnil
    rw [hnil] at hlen
    simp only [List.length_nil] at hlen
    omega
  have hstep := readChunk_split_eq cfg s c ⟨hcount, hrun⟩ hk0 hne
  rw [hstep]
  refine ⟨rfl, hne, rfl, ?_, rfl⟩
  show ((s.frames ++ [c]).drop ((s.frames ++ [c]).length - nextSilent cfg s c)).length = _
  rw [List.length_drop]
  omega

theorem claim_C8_silence_split_witness :
    1 ≤ smallConfig.required_silent_chunks ∧
    smallConfig.required_silent_chunks ≤ nextSilent smallConfig splitState [0] ∧
    nextSilent smallConfig splitState [0] < (splitState.frames ++ [[0]]).length ∧
    (readChunk smallConfig splitState [0]).queue =
      splitState.queue ++ [(splitState.frames ++ [[0]]).take
        ((splitState.frames ++ [[0]]).length - nextSilent smallConfig splitState [0])] :=
  ⟨by decide, by decide, by decide,
    (claim_C8_silence_split smallConfig splitState [0]
      (by decide) (by decide) (by decide)).1⟩

/-- Claim C6 (counterexample): with silence duration 1.0 s, sample rate 48000
and chunk size 1024 the required-silence count of the code is 46 while
`ceil(duration * sampleRate / frameSize)` is 47, so the count is not the
claimed ceiling; and `Recorder.__init__` does not reject configurations whose
count is 0: duration 0.01 s yields a constructed configuration with
`required_silent_chunks = 0`. -/
theorem claim_C6_counterexample :
    requiredSilentChunksOf 1 48000 1024 = 46 ∧
    ⌈(1 : ℚ) * 48000 / 1024⌉ = 47 ∧
    (46 : ℤ) ≠ 47 ∧
    (Recorder.mkConfig 300 (mkRat 1 100) 48000 1024).required_silent_chunks = 0 := by
  refine ⟨by decide, ?_, by decide, by decide⟩
  rw [Int.ceil_eq_iff]
  constructor <;> norm_num

/-- Claim C6 (amended): the required-silence count computed by
`Recorder.__init__` is the *floor* (Python `int` truncation) of
`duration * sampleRate / frameSize`, not its ceiling; and construction performs
no validation, so a configuration whose count is 0 is accepted rather than
rejected. -/
theorem claim_C6_floor_not_ceil_no_validation :
    (∀ (d : ℚ) (r c : ℕ), 0 ≤ d → requiredSilentChunksOf d r c = ⌊d * r / c⌋) ∧
    (Recorder.mkConfig 300 (mkRat 1 100) 48000 1024).required_silent_chunks = 0 := by
  constructor
  · intro d r c hd
    have hnn : (0 : ℚ) ≤ d * r / c :=
      div_nonneg (mul_nonneg hd (Nat.cast_nonneg r)) (Nat.cast_nonneg c)
    simp only [requiredSilentChunksOf, pyInt, silenceRatio_eq_div]
    rw [if_pos hnn]
  · decide

theorem claim_C6_floor_not_ceil_no_validation_witness :
    (0 : ℚ) ≤ 1 ∧ requiredSilentChunksOf 1 48000 1024 = ⌊(1 : ℚ) * 48000 / 1024⌋ :=
  ⟨by norm_num, claim_C6_floor_not_ceil_no_validation.1 1 48000 1024 (by norm_num)⟩

end VoiceTyping
